import Mathlib

/-!
Verification development for the GitHub team/repo administration tool
(src/github.py and src/git-manager.py).

The two scripts are near-duplicates of one administrative CLI.  This file
gives a shallow embedding of the parts the specification talks about:

* a model of `GitHubAPIManager.make_request` over an abstract network
  outcome (connection error, or an HTTP response with a status code, a
  raw body text and its JSON parse);
* the boolean access operations (`create_team`, `delete_team`, ...) both
  as functions of the raw network outcome and as trace-producing
  functions over a world of decoded per-endpoint replies;
* the pure helpers `get_team_by_name` (resolver scan),
  `get_access_level_description` (classifier) and `validate_user`;
* both `run_action` dispatchers (the github.py variant, which always
  logs one record at the end, and the git-manager.py variant, which logs
  to Excel only on success), as functions producing the ordered list of
  observable events (Transport requests and Audit Logger invocations);
* the two audit-log backends (`log_to_google_sheets`,
  `log_action_to_excel`) as row-list transformers in which each backend
  primitive (connect/load, append, format/save) may raise, and the
  surrounding try/except reduces any raise to a warning flag.

Modelling conventions: Python strings are Lean `String`; the Python
`None`-or-string CLI arguments are modelled as `String` with `""` for
`None` (both are falsy in every test the source performs on them);
Python string methods `.upper()`, `.lower()` and `in` are modelled with
character-list versions (`pyUpper`, `pyLower`, `pyContains`) whose
behaviour matches the source on the relevant inputs and which reduce in
the kernel; JSON numbers are modelled as `Int` (no claim depends on
numeric values beyond truthiness); wall-clock timestamps are threaded as
an opaque string parameter; printing to stdout is not modelled.  Remote
JSON collections that the source indexes by fixed keys (team name/slug,
repo name/private flag, member login) are modelled as already-decoded
typed lists, i.e. responses are assumed well-formed; a malformed body
would raise a KeyError in the source, which no claim is about.
-/

/-- JSON values as produced by response.json() in the source. -/
inductive Json where
  | null : Json
  | bool (b : Bool) : Json
  | num (n : Int) : Json
  | str (s : String) : Json
  | arr (xs : List Json) : Json
  | obj (fields : List (String × Json)) : Json

/-- Python truthiness of a decoded JSON value: None, False, 0, "", [] and
\x7b\x7d are falsy, everything else is truthy. -/
def Json.truthy : Json → Bool
  | .null => false
  | .bool b => b
  | .num n => n != 0
  | .str s => s != ""
  | .arr xs => !xs.isEmpty
  | .obj fs => !fs.isEmpty

/-- Association lookup in the field list of a JSON object (dict access). -/
def lookupFields : List (String × Json) → String → Option Json
  | [], _ => none
  | (k, v) :: rest, key => if k == key then some v else lookupFields rest key

/-- Python dict .get on a JSON value; none when the value is not an object
or the key is absent. -/
def Json.lookup (j : Json) (key : String) : Option Json :=
  match j with
  | .obj fs => lookupFields fs key
  | _ => none

/-- Python str.lower, modelled on the character list (agrees with the
source for the ASCII names it is applied to). -/
def pyLower (s : String) : String := ⟨s.data.map Char.toLower⟩

/-- Python str.upper, modelled on the character list. -/
def pyUpper (s : String) : String := ⟨s.data.map Char.toUpper⟩

/-- Python membership test of a character in a string. -/
def pyContains (s : String) (c : Char) : Bool := s.data.contains c

/-- Python or on argument strings, where None is modelled as "" (both are
falsy in the source tests). -/
def pyOr (a b : String) : String := if a == "" then b else a

/-- Python str() of a boolean. -/
def pyStr (b : Bool) : String := if b then "True" else "False"

/-- An HTTP response as seen by make_request: status code, raw body text
and the result of parsing the body as JSON (none when the body is not
valid JSON, in which case response.json() raises JSONDecodeError). -/
structure HttpResponse where
  status : Nat
  text : String
  jsonBody : Option Json

/-- Outcome of issuing one HTTP request: a network-level failure (the
requests.exceptions.RequestException branch) or a response. -/
inductive NetResult where
  | exn : NetResult
  | resp (r : HttpResponse) : NetResult

/-- Method strings the source dispatches on (after .upper()). -/
def validMethod (m : String) : Bool :=
  pyUpper m == "GET" || pyUpper m == "POST" || pyUpper m == "PUT" || pyUpper m == "DELETE"

/-- Status codes the source treats as success: 200, 201, 204. -/
def successStatus (code : Nat) : Bool := code == 200 || code == 201 || code == 204

/-- Python identifies a decoded JSON null with None, so a body consisting
of the literal null is indistinguishable from the no-result value for
every caller; this collapse mirrors that. -/
def pyJsonValue : Option Json → Option Json
  | some Json.null => none
  | x => x

/-- Model of GitHubAPIManager.make_request (identical in both source
files).  Except.error () is the uncaught ValueError raised for an
unsupported HTTP method; Except.ok none is the Python return value None;
Except.ok (some j) is a returned JSON value.  On a success status the
source returns response.json() when the body text is non-empty and the
empty dict otherwise; every failure (non-2xx status, network error,
JSON decode error) is caught and turned into None. -/
def make_request (method : String) (endpoint : String) (net : NetResult) :
    Except Unit (Option Json) :=
  if validMethod method then
    match net with
    | .exn => .ok none
    | .resp r =>
      if successStatus r.status then
        if r.text == "" then .ok (some (Json.obj []))
        else .ok (pyJsonValue r.jsonBody)
      else .ok none
  else .error ()

/-- Value of make_request for the valid methods, with the impossible
raise branch mapped to none (the lemma make_request_never_raises shows the
branch is dead for the four methods the operations use). -/
def transport (method endpoint : String) (net : NetResult) : Option Json :=
  match make_request method endpoint net with
  | .ok r => r
  | .error _ => none

/-- Endpoint path helpers matching the f-strings in the source. -/
def orgsEp : String := "/user/memberships/orgs"

def teamsEp (org : String) : String := "/orgs/" ++ org ++ "/teams"

def reposEp (org : String) : String := "/orgs/" ++ org ++ "/repos"

def membersEp (org : String) : String := "/orgs/" ++ org ++ "/members"

def userEp (username : String) : String := "/users/" ++ username

def teamEp (org slug : String) : String := "/orgs/" ++ org ++ "/teams/" ++ slug

def teamRepoEp (org slug repo : String) : String :=
  "/orgs/" ++ org ++ "/teams/" ++ slug ++ "/repos/" ++ org ++ "/" ++ repo

def membershipEp (org slug username : String) : String :=
  "/orgs/" ++ org ++ "/teams/" ++ slug ++ "/memberships/" ++ username

def repoEp (org repo : String) : String := "/repos/" ++ org ++ "/" ++ repo

def collabEp (org repo username : String) : String :=
  "/repos/" ++ org ++ "/" ++ repo ++ "/collaborators/" ++ username

def permEp (org repo username : String) : String :=
  collabEp org repo username ++ "/permission"

/-- Success test of create_team: the source uses the truthiness check
if response, so an empty decoded body counts as failure. -/
def create_team_ok (response : Option Json) : Bool :=
  match response with
  | some j => j.truthy
  | none => false

/-- Success test of delete_team: the source uses if response is not None. -/
def delete_team_ok (response : Option Json) : Bool := response.isSome

/-- Success test of add_team_to_repo (is-not-None check). -/
def add_team_to_repo_ok (response : Option Json) : Bool := response.isSome

/-- Success test of remove_team_from_repo (is-not-None check). -/
def remove_team_from_repo_ok (response : Option Json) : Bool := response.isSome

/-- Success test of add_user_to_team: truthiness check, like create_team. -/
def add_user_to_team_ok (response : Option Json) : Bool :=
  match response with
  | some j => j.truthy
  | none => false

/-- Success test of remove_user_from_team (is-not-None check). -/
def remove_user_from_team_ok (response : Option Json) : Bool := response.isSome

/-- Success test of create_repo: truthiness check. -/
def create_repo_ok (response : Option Json) : Bool :=
  match response with
  | some j => j.truthy
  | none => false

/-- Success test of delete_repo (is-not-None check; github.py only). -/
def delete_repo_ok (response : Option Json) : Bool := response.isSome

/-- The boolean operations as functions of the raw network outcome of
their single Transport call. -/
def create_team_net (org team_name : String) (net : NetResult) : Bool :=
  create_team_ok (transport "POST" (teamsEp org) net)

def delete_team_net (org team_slug : String) (net : NetResult) : Bool :=
  delete_team_ok (transport "DELETE" (teamEp org team_slug) net)

def add_team_to_repo_net (org team_slug repo permission : String) (net : NetResult) : Bool :=
  add_team_to_repo_ok (transport "PUT" (teamRepoEp org team_slug repo) net)

def remove_team_from_repo_net (org team_slug repo : String) (net : NetResult) : Bool :=
  remove_team_from_repo_ok (transport "DELETE" (teamRepoEp org team_slug repo) net)

def add_user_to_team_net (org team_slug username : String) (net : NetResult) : Bool :=
  add_user_to_team_ok (transport "PUT" (membershipEp org team_slug username) net)

def remove_user_from_team_net (org team_slug username : String) (net : NetResult) : Bool :=
  remove_user_from_team_ok (transport "DELETE" (membershipEp org team_slug username) net)

def create_repo_net (org repo_name : String) (net : NetResult) : Bool :=
  create_repo_ok (transport "POST" (reposEp org) net)

def delete_repo_net (org repo_name : String) (net : NetResult) : Bool :=
  delete_repo_ok (transport "DELETE" (repoEp org repo_name) net)

/-- Model of get_access_level_description: a fixed lookup table on the
lower-cased permission string, with a fallback embedding the original
input (github.py lines 253 to 263). -/
def get_access_level_description (permission : String) : String :=
  if pyLower permission == "admin" then
    "Full Access - Admin (Create, Read, Update, Delete, Manage Settings)"
  else if pyLower permission == "maintain" then
    "Maintain Access (Create, Read, Update, Delete, Manage Issues/PRs)"
  else if pyLower permission == "push" then
    "Write Access (Create, Read, Update, Delete Code)"
  else if pyLower permission == "triage" then
    "Triage Access (Read, Manage Issues/PRs)"
  else if pyLower permission == "pull" then
    "Read Access (Clone, Pull, View)"
  else if pyLower permission == "none" then
    "No Access"
  else
    "Unknown Access Level (" ++ permission ++ ")"

/-- A team as used by the source: display name and platform slug. -/
structure Team where
  name : String
  slug : String
deriving DecidableEq

/-- A repository as used by the source: name and visibility flag. -/
structure Repo where
  name : String
  is_private : Bool
deriving DecidableEq

/-- The scan loop inside get_team_by_name: first team whose name matches
the requested name case-insensitively. -/
def team_scan (teams : List Team) (team_name : String) : Option Team :=
  teams.find? (fun team => pyLower team.name == pyLower team_name)

/-- The structured record handed to the Google Sheets audit backend by
github.py (keyword arguments of log_to_google_sheets, with the Python
None arguments normalised to "" exactly as the row construction does via
its or-empty defaults).  The wall-clock timestamp is threaded separately. -/
structure AuditRecord where
  action : String
  org : String
  team : String
  repo : String
  user : String
  permission : String
  access_level : String
  status : String
deriving DecidableEq

/-- The log_data dictionary handed to the Excel audit backend by
git-manager.py. -/
structure GmRecord where
  action : String
  org : String
  team : String
  repo : String
  user : String
  permission : String
  repo_name : String
  repo_private : Bool
deriving DecidableEq

/-- Observable events of one dispatcher invocation, in program order: a
Transport call (one make_request invocation) or an Audit Logger
invocation on one of the two backends. -/
inductive Event where
  | request (method : String) (endpoint : String) : Event
  | auditSheets (r : AuditRecord) : Event
  | auditExcel (r : GmRecord) : Event
deriving DecidableEq

/-- A mutating Transport call (POST, PUT or DELETE). -/
def Event.isMutatingReq : Event → Bool
  | .request m _ => m == "POST" || m == "PUT" || m == "DELETE"
  | _ => false

/-- An Audit Logger invocation on either backend. -/
def Event.isAudit : Event → Bool
  | .auditSheets _ => true
  | .auditExcel _ => true
  | _ => false

/-- The Resolver Transport call: the GET that lists the teams of the
organization (issued by get_team_by_name via list_teams). -/
def Event.isTeamsGet (org : String) : Event → Bool
  | .request m ep => m == "GET" && ep == teamsEp org
  | _ => false

/-- Command-line arguments as run_action receives them.  argparse leaves
unset string options as None, modelled by ""; every source test on them
(if not args.team, f-string defaults, or-defaults) treats None and ""
alike. -/
structure Args where
  action : String
  org : String
  team : String
  repo : String
  user : String
  permission : String
  repo_private : Bool
  repo_name : String
  verbose : Bool
deriving DecidableEq

/-- One invocation worth of remote state: the decoded reply of each
endpoint the dispatcher may hit.  A none reply means make_request
returned None for that call (failure status, network error or bad
JSON); a some reply is the successfully decoded body.  Collection
endpoints are given already decoded into the typed lists the source
reads out of them. -/
structure World where
  listOrgsReply : Option (List String)
  listTeamsReply : Option (List Team)
  listReposReply : Option (List Repo)
  listUsersReply : Option (List String)
  userReply : Option Json
  mutateReply : Option Json
  collabReply : String → Option Json
  memberReply : String → Option Json
  permReply : String → Option Json

/-- Model of list_orgs: value and the Transport events it issues. -/
def list_orgs (w : World) : List String × List Event :=
  (w.listOrgsReply.getD [], [Event.request "GET" orgsEp])

/-- Model of list_teams: empty list when the GET fails. -/
def list_teams (w : World) (org : String) : List Team × List Event :=
  (w.listTeamsReply.getD [], [Event.request "GET" (teamsEp org)])

/-- Model of list_repos: empty list when the GET fails. -/
def list_repos (w : World) (org : String) : List Repo × List Event :=
  (w.listReposReply.getD [], [Event.request "GET" (reposEp org)])

/-- Model of list_users: empty list when the GET fails. -/
def list_users (w : World) (org : String) : List String × List Event :=
  (w.listUsersReply.getD [], [Event.request "GET" (membersEp org)])

/-- Model of create_team (success flag and events). -/
def create_team (org team_name : String) (reply : Option Json) : Bool × List Event :=
  (create_team_ok reply, [Event.request "POST" (teamsEp org)])

/-- Model of delete_team. -/
def delete_team (org team_slug : String) (reply : Option Json) : Bool × List Event :=
  (delete_team_ok reply, [Event.request "DELETE" (teamEp org team_slug)])

/-- Model of add_team_to_repo. -/
def add_team_to_repo (org team_slug repo permission : String) (reply : Option Json) :
    Bool × List Event :=
  (add_team_to_repo_ok reply, [Event.request "PUT" (teamRepoEp org team_slug repo)])

/-- Model of remove_team_from_repo. -/
def remove_team_from_repo (org team_slug repo : String) (reply : Option Json) :
    Bool × List Event :=
  (remove_team_from_repo_ok reply, [Event.request "DELETE" (teamRepoEp org team_slug repo)])

/-- Model of add_user_to_team. -/
def add_user_to_team (org team_slug username : String) (reply : Option Json) :
    Bool × List Event :=
  (add_user_to_team_ok reply, [Event.request "PUT" (membershipEp org team_slug username)])

/-- Model of remove_user_from_team. -/
def remove_user_from_team (org team_slug username : String) (reply : Option Json) :
    Bool × List Event :=
  (remove_user_from_team_ok reply, [Event.request "DELETE" (membershipEp org team_slug username)])

/-- Model of create_repo. -/
def create_repo (org repo_name : String) (is_private : Bool) (reply : Option Json) :
    Bool × List Event :=
  (create_repo_ok reply, [Event.request "POST" (reposEp org)])

/-- Model of delete_repo (github.py only). -/
def delete_repo (org repo_name : String) (reply : Option Json) : Bool × List Event :=
  (delete_repo_ok reply, [Event.request "DELETE" (repoEp org repo_name)])

/-- Model of validate_user: an email-shaped input (containing the at
character) is rejected immediately with no Transport call; otherwise one
GET on the user endpoint and success is its not-None test. -/
def validate_user (username : String) (reply : Option Json) : Bool × List Event :=
  if pyContains username '@' then (false, [])
  else (reply.isSome, [Event.request "GET" (userEp username)])

/-- Model of get_team_by_name: list the teams (one GET) and scan for the
first case-insensitive name match. -/
def get_team_by_name (w : World) (org team_name : String) : Option Team × List Event :=
  (team_scan (list_teams w org).1 team_name, (list_teams w org).2)

/-- Model of get_user_repo_access: list the repos, then one collaborator
GET per repo; returns the names of the repos whose check succeeded. -/
def get_user_repo_access (w : World) (org username : String) : List String × List Event :=
  ((((list_repos w org).1.filter
        (fun repo => (w.collabReply (collabEp org repo.name username)).isSome)).map Repo.name),
   (list_repos w org).2 ++
     (list_repos w org).1.map (fun repo => Event.request "GET" (collabEp org repo.name username)))

/-- Membership test used by list_users_with_access: the reply is truthy
and its state field is the string active. -/
def isActiveMember (reply : Option Json) : Bool :=
  match reply with
  | some j =>
    j.truthy && (match j.lookup "state" with
                 | some (Json.str s) => s == "active"
                 | _ => false)
  | none => false

/-- Permission extraction used by list_users_with_access: the permission
field of a truthy reply, else the string none.  The source would carry a
non-string field value through unchanged; the model assumes the platform
returns permission strings. -/
def permOf (reply : Option Json) : String :=
  match reply with
  | some j =>
    if j.truthy then
      match j.lookup "permission" with
      | some (Json.str s) => s
      | _ => "none"
    else "none"
  | none => "none"

/-- Team names of which the user is an active member, in listing order. -/
def userTeamNames (w : World) (org user : String) (teams : List Team) : List String :=
  (teams.filter
      (fun team => isActiveMember (w.memberReply (membershipEp org team.slug user)))).map
    Team.name

/-- Python join used for the team column of the per-pair audit records. -/
def joinedTeams (names : List String) : String :=
  if names.isEmpty then "N/A" else String.intercalate ", " names

/-- The per-(user, repo) audit record written from inside
list_users_with_access. -/
def uaRecord (org user teamField repoName permission : String) : AuditRecord :=
  { action := "list-users-access", org := org, team := teamField, repo := repoName,
    user := user, permission := permission,
    access_level := get_access_level_description permission, status := "Success" }

/-- Model of list_users_with_access: list users, repos and teams, then for
each user one membership GET per team followed by, for each repo, one
permission GET and one Audit Logger invocation. -/
def list_users_with_access (w : World) (org : String) : List Event :=
  (list_users w org).2 ++ (list_repos w org).2 ++ (list_teams w org).2 ++
    ((list_users w org).1.map (fun user =>
      ((list_teams w org).1.map
          (fun team => Event.request "GET" (membershipEp org team.slug user))) ++
        ((list_repos w org).1.map (fun repo =>
          [Event.request "GET" (permEp org repo.name user),
           Event.auditSheets
             (uaRecord org user
               (joinedTeams (userTeamNames w org user (list_teams w org).1))
               repo.name
               (permOf (w.permReply (permEp org repo.name user))))])).flatten)).flatten

/-- Result of the github.py run_action: either the process exited inside
the dispatcher (sys.exit on a validation failure) after the listed
events, or the branch completed with the given success flag and events. -/
inductive GhResult where
  | exited (code : Nat) (events : List Event) : GhResult
  | completed (success : Bool) (events : List Event) : GhResult
deriving DecidableEq

/-- Events of a github.py run, whichever way it ended. -/
def GhResult.events : GhResult → List Event
  | .exited _ evs => evs
  | .completed _ evs => evs

/-- The record passed to log_to_google_sheets at the end of the github.py
run_action (lines 502 to 513 of github.py). -/
def finalRecordGh (args : Args) (succ : Bool) : AuditRecord :=
  { action := args.action
    org := args.org
    team := args.team
    repo := pyOr args.repo args.repo_name
    user := args.user
    permission := args.permission
    access_level :=
      if args.permission != "" then get_access_level_description args.permission else ""
    status := if succ then "Success" else "Failed" }

/-- Branch selection of the github.py run_action: the if/elif chain on
args.action, before the unconditional final Audit Logger call.  Sum.inl
is a sys.exit with the events issued so far; Sum.inr is the computed
success flag with the events. -/
def ghBranch (args : Args) (w : World) : (Nat × List Event) ⊕ (Bool × List Event) :=
  if args.action == "list-orgs" then .inr (true, (list_orgs w).2)
  else if args.action == "list-teams" then .inr (true, (list_teams w args.org).2)
  else if args.action == "list-repos" then .inr (true, (list_repos w args.org).2)
  else if args.action == "create-team" then
    if args.team == "" then .inl (1, [])
    else
      let r := create_team args.org args.team w.mutateReply
      .inr (r.1, r.2)
  else if args.action == "delete-team" then
    if args.team == "" then .inl (1, [])
    else
      let ti := get_team_by_name w args.org args.team
      match ti.1 with
      | some team_info =>
        let r := delete_team args.org team_info.slug w.mutateReply
        .inr (r.1, ti.2 ++ r.2)
      | none => .inr (false, ti.2)
  else if args.action == "add-repo" then
    if args.team == "" || args.repo == "" || args.permission == "" then .inl (1, [])
    else
      let ti := get_team_by_name w args.org args.team
      match ti.1 with
      | some team_info =>
        let r := add_team_to_repo args.org team_info.slug args.repo args.permission w.mutateReply
        .inr (r.1, ti.2 ++ r.2)
      | none => .inr (false, ti.2)
  else if args.action == "remove-repo" then
    if args.team == "" || args.repo == "" then .inl (1, [])
    else
      let ti := get_team_by_name w args.org args.team
      match ti.1 with
      | some team_info =>
        let r := remove_team_from_repo args.org team_info.slug args.repo w.mutateReply
        .inr (r.1, ti.2 ++ r.2)
      | none => .inr (false, ti.2)
  else if args.action == "add-user" || args.action == "remove-user" then
    if args.team == "" || args.user == "" then .inl (1, [])
    else
      let v := validate_user args.user w.userReply
      if !v.1 then .inl (1, v.2)
      else
        let ti := get_team_by_name w args.org args.team
        match ti.1 with
        | none => .inl (1, v.2 ++ ti.2)
        | some team_info =>
          if args.action == "add-user" then
            let r := add_user_to_team args.org team_info.slug args.user w.mutateReply
            .inr (r.1, v.2 ++ ti.2 ++ r.2)
          else
            let r := remove_user_from_team args.org team_info.slug args.user w.mutateReply
            .inr (r.1, v.2 ++ ti.2 ++ r.2)
  else if args.action == "create-repo" then
    if args.repo_name == "" then .inl (1, [])
    else
      let r := create_repo args.org args.repo_name args.repo_private w.mutateReply
      .inr (r.1, r.2)
  else if args.action == "delete-repo" then
    if args.repo == "" then .inl (1, [])
    else
      let r := delete_repo args.org args.repo w.mutateReply
      .inr (r.1, r.2)
  else if args.action == "user-access" then
    if args.user == "" then .inl (1, [])
    else .inr (true, (get_user_repo_access w args.org args.user).2)
  else if args.action == "list-users" then .inr (true, (list_users w args.org).2)
  else if args.action == "list-users-access" then .inr (true, list_users_with_access w args.org)
  else .inr (false, [])

/-- Model of the github.py run_action: run the selected branch, then (on
every path that does not sys.exit) invoke the Google Sheets Audit Logger
exactly once with the outcome status. -/
def run_action_gh (args : Args) (w : World) : GhResult :=
  match ghBranch args w with
  | .inl p => .exited p.1 p.2
  | .inr p => .completed p.1 (p.2 ++ [Event.auditSheets (finalRecordGh args p.1)])

/-- The log_data record built at the top of the git-manager.py run_action. -/
def gmRecord (args : Args) : GmRecord :=
  { action := args.action, org := args.org, team := args.team, repo := args.repo,
    user := args.user, permission := args.permission, repo_name := args.repo_name,
    repo_private := args.repo_private }

/-- Model of the git-manager.py run_action: same dispatch structure, but
the Excel Audit Logger is invoked only inside the success branch of each
mutating operation; read-only actions never log.  The first component is
some code when the source calls sys.exit. -/
def run_action_gm (args : Args) (w : World) : Option Nat × List Event :=
  if args.action == "list-orgs" then (none, (list_orgs w).2)
  else if args.action == "list-teams" then (none, (list_teams w args.org).2)
  else if args.action == "list-repos" then (none, (list_repos w args.org).2)
  else if args.action == "create-team" then
    if args.team == "" then (some 1, [])
    else
      let r := create_team args.org args.team w.mutateReply
      (none, r.2 ++ (if r.1 then [Event.auditExcel (gmRecord args)] else []))
  else if args.action == "delete-team" then
    if args.team == "" then (some 1, [])
    else
      let ti := get_team_by_name w args.org args.team
      match ti.1 with
      | some team_info =>
        let r := delete_team args.org team_info.slug w.mutateReply
        (none, ti.2 ++ r.2 ++ (if r.1 then [Event.auditExcel (gmRecord args)] else []))
      | none => (some 1, ti.2)
  else if args.action == "add-repo" then
    if args.team == "" || args.repo == "" || args.permission == "" then (some 1, [])
    else
      let ti := get_team_by_name w args.org args.team
      match ti.1 with
      | some team_info =>
        let r := add_team_to_repo args.org team_info.slug args.repo args.permission w.mutateReply
        (none, ti.2 ++ r.2 ++ (if r.1 then [Event.auditExcel (gmRecord args)] else []))
      | none => (some 1, ti.2)
  else if args.action == "remove-repo" then
    if args.team == "" || args.repo == "" then (some 1, [])
    else
      let ti := get_team_by_name w args.org args.team
      match ti.1 with
      | some team_info =>
        let r := remove_team_from_repo args.org team_info.slug args.repo w.mutateReply
        (none, ti.2 ++ r.2 ++ (if r.1 then [Event.auditExcel (gmRecord args)] else []))
      | none => (some 1, ti.2)
  else if args.action == "add-user" || args.action == "remove-user" then
    if args.team == "" || args.user == "" then (some 1, [])
    else
      let v := validate_user args.user w.userReply
      if !v.1 then (some 1, v.2)
      else
        let ti := get_team_by_name w args.org args.team
        match ti.1 with
        | none => (some 1, v.2 ++ ti.2)
        | some team_info =>
          if args.action == "add-user" then
            let r := add_user_to_team args.org team_info.slug args.user w.mutateReply
            (none, v.2 ++ ti.2 ++ r.2 ++ (if r.1 then [Event.auditExcel (gmRecord args)] else []))
          else
            let r := remove_user_from_team args.org team_info.slug args.user w.mutateReply
            (none, v.2 ++ ti.2 ++ r.2 ++ (if r.1 then [Event.auditExcel (gmRecord args)] else []))
  else if args.action == "create-repo" then
    if args.repo_name == "" then (some 1, [])
    else
      let r := create_repo args.org args.repo_name args.repo_private w.mutateReply
      (none, r.2 ++ (if r.1 then [Event.auditExcel (gmRecord args)] else []))
  else if args.action == "user-access" then
    if args.user == "" then (some 1, [])
    else
      let v := validate_user args.user w.userReply
      if v.1 then (none, v.2 ++ (get_user_repo_access w args.org args.user).2)
      else (none, v.2)
  else (none, [])

/-- Header row the Google Sheets backend writes on first use. -/
def sheetsHeaders : List String :=
  ["Timestamp", "Action", "Organization", "Team", "Repository",
   "User", "Permission", "Access Level Description", "Status", "Notes"]

/-- First cell of the first row of the worksheet (existing_data[0][0]). -/
def firstCell (sheet : List (List String)) : String := (sheet.headD []).headD ""

/-- Header detection of log_to_google_sheets: the sheet is empty or its
first cell is not the Timestamp header. -/
def headerMissing (sheet : List (List String)) : Bool :=
  sheet.isEmpty || firstCell sheet != "Timestamp"

/-- Behaviour of the Google Sheets backend primitives during one call:
whether the connect phase (credentials, authorize, open worksheet, read
values) succeeds, whether append_row succeeds, and whether the
formatting and trailing reads succeed.  A false flag means that
primitive raises when reached. -/
structure SheetsWorld where
  connectOk : Bool
  appendOk : Bool
  formatOk : Bool
deriving DecidableEq

/-- Result of running the try-block body of a backend call: ran to the
end with the resulting rows, or raised with the rows as mutated so far. -/
inductive SheetsOutcome where
  | finished (sheet : List (List String)) : SheetsOutcome
  | raised (sheet : List (List String)) : SheetsOutcome
deriving DecidableEq

/-- Append phase of the Google Sheets body: append_row of the data row,
then the post-append reads and conditional formatting (which run after
the row is already appended). -/
def sheetsAppendPhase (w : SheetsWorld) (s : List (List String)) (row : List String) :
    SheetsOutcome :=
  if !w.appendOk then .raised s
  else if !w.formatOk then .raised (s ++ [row])
  else .finished (s ++ [row])

/-- The try-block body of log_to_google_sheets: connect and read the
sheet; when the header is missing or stale, clear a non-empty sheet and
append the header row (with its formatting); then append the data row
and apply the best-effort formatting. -/
def sheetsBodyRun (w : SheetsWorld) (sheet : List (List String)) (row : List String) :
    SheetsOutcome :=
  if !w.connectOk then .raised sheet
  else if headerMissing sheet then
    let cleared := if !sheet.isEmpty then ([] : List (List String)) else sheet
    if !w.appendOk then .raised cleared
    else if !w.formatOk then .raised (cleared ++ [sheetsHeaders])
    else sheetsAppendPhase w (cleared ++ [sheetsHeaders]) row
  else sheetsAppendPhase w sheet row

/-- Model of log_to_google_sheets: the body runs inside try/except, so a
raise anywhere leaves the rows as mutated so far and produces a printed
warning (second component true) instead of propagating. -/
def log_to_google_sheets (w : SheetsWorld) (sheet : List (List String)) (row : List String) :
    List (List String) × Bool :=
  match sheetsBodyRun w sheet row with
  | .finished s => (s, false)
  | .raised s => (s, true)

/-- Free-text notes column computed per action kind by the Sheets backend. -/
def sheetsNotes (r : AuditRecord) : String :=
  if r.action == "create-repo" then
    "Repository \x27" ++ r.repo ++ "\x27 created in organization \x27" ++ r.org ++ "\x27"
  else if r.action == "add-user" then
    "User \x27" ++ r.user ++ "\x27 added to team \x27" ++ r.team ++ "\x27"
  else if r.action == "list-users-access" then
    "Access audit for user \x27" ++ r.user ++ "\x27 in \x27" ++ r.org ++ "\x27"
  else if r.action == "delete-team" then
    "Team \x27" ++ r.team ++ "\x27 deleted from organization \x27" ++ r.org ++ "\x27"
  else ""

/-- The data row the Sheets backend appends for a record, with the
timestamp threaded as an opaque string. -/
def sheetsRow (ts : String) (r : AuditRecord) : List String :=
  [ts, r.action, r.org, r.team, r.repo, r.user, r.permission, r.access_level, r.status,
   sheetsNotes r]

/-- Header row the Excel backend writes when it creates the file. -/
def excelHeaders : List String :=
  ["Timestamp (IST)", "Action", "Organization", "Team", "Repository",
   "User", "Permission", "New Repo Name", "Private Repo"]

/-- Behaviour of the Excel backend primitives during one call: whether
loading or creating the workbook succeeds and whether saving it succeeds. -/
structure ExcelWorld where
  loadOk : Bool
  saveOk : Bool
deriving DecidableEq

/-- Result of the Excel try-block body; the carried value is the file
contents on disk (none when the file does not exist).  The append happens
on the in-memory workbook, so a failing save leaves the file unchanged. -/
inductive ExcelOutcome where
  | finished (file : Option (List (List String))) : ExcelOutcome
  | raised (file : Option (List (List String))) : ExcelOutcome
deriving DecidableEq

/-- The try-block body of log_action_to_excel: load the workbook (or
start a fresh one with a header row), append the data row in memory,
then save. -/
def excelBodyRun (w : ExcelWorld) (file : Option (List (List String))) (row : List String) :
    ExcelOutcome :=
  if !w.loadOk then .raised file
  else
    let rows :=
      match file with
      | some rs => rs
      | none => [excelHeaders]
    if !w.saveOk then .raised file
    else .finished (some (rows ++ [row]))

/-- Model of log_action_to_excel: any raise in the body is caught and
reduced to a printed error message (second component true); nothing is
re-raised. -/
def log_action_to_excel (w : ExcelWorld) (file : Option (List (List String)))
    (row : List String) : Option (List (List String)) × Bool :=
  match excelBodyRun w file row with
  | .finished f => (f, false)
  | .raised f => (f, true)

/-- The row the Excel backend appends for a log_data record. -/
def excelRow (ts : String) (r : GmRecord) : List String :=
  [ts, r.action, r.org, r.team, r.repo, r.user, r.permission, r.repo_name,
   pyStr r.repo_private]

/-- Replay of the Audit Logger invocations of a github.py run against the
Google Sheets backend, in event order. -/
def applyGhLogs (sw : SheetsWorld) (ts : String) (sheet0 : List (List String))
    (evs : List Event) : List (List String) :=
  evs.foldl
    (fun s e =>
      match e with
      | Event.auditSheets r => (log_to_google_sheets sw s (sheetsRow ts r)).1
      | _ => s)
    sheet0

/-- Replay of the Audit Logger invocations of a git-manager.py run against
the Excel backend, in event order. -/
def applyGmLogs (ew : ExcelWorld) (ts : String) (file0 : Option (List (List String)))
    (evs : List Event) : Option (List (List String)) :=
  evs.foldl
    (fun f e =>
      match e with
      | Event.auditExcel r => (log_action_to_excel ew f (excelRow ts r)).1
      | _ => f)
    file0

/-- A github.py invocation together with its logging side effects: the
dispatcher outcome and the final worksheet contents.  The source computes
the success flag before the logging call and ignores the logging result,
so the pairing is faithful to the interleaved execution. -/
def ghOutcome (args : Args) (w : World) (sw : SheetsWorld) (ts : String)
    (sheet0 : List (List String)) : GhResult × List (List String) :=
  (run_action_gh args w, applyGhLogs sw ts sheet0 (run_action_gh args w).events)

/-- A git-manager.py invocation together with its logging side effects. -/
def gmOutcome (args : Args) (w : World) (ew : ExcelWorld) (ts : String)
    (file0 : Option (List (List String))) :
    (Option Nat × List Event) × Option (List (List String)) :=
  (run_action_gm args w, applyGmLogs ew ts file0 (run_action_gm args w).2)

/-- Transport success of one call: make_request returned a decoded value
rather than None. -/
def transportSuccess (method endpoint : String) (net : NetResult) : Prop :=
  ∃ j, make_request method endpoint net = Except.ok (some j)

/-- A Sheets backend call in which every primitive succeeds. -/
def allOkSheets : SheetsWorld := ⟨true, true, true⟩

/-- An Excel backend call in which every primitive succeeds. -/
def allOkExcel : ExcelWorld := ⟨true, true⟩

/-- A world in which every Transport call fails (make_request returns
None everywhere), so every listed collection is empty. -/
def noWorld : World :=
  { listOrgsReply := none, listTeamsReply := none, listReposReply := none,
    listUsersReply := none, userReply := none, mutateReply := none,
    collabReply := fun _ => none, memberReply := fun _ => none, permReply := fun _ => none }

/-- Default argument record (argparse defaults: every option unset). -/
def defaultArgs : Args :=
  { action := "", org := "", team := "", repo := "", user := "", permission := "",
    repo_private := false, repo_name := "", verbose := false }

/-- The mutating actions of the github.py CLI. -/
def mutatingActionsGh : List String :=
  ["create-team", "delete-team", "add-repo", "remove-repo", "add-user", "remove-user",
   "create-repo", "delete-repo"]

/-- The name-based actions, which need the Resolver before mutating. -/
def nameBasedActions : List String :=
  ["delete-team", "add-repo", "remove-repo", "add-user", "remove-user"]

/-- The read-only actions of the github.py CLI. -/
def readOnlyActions : List String :=
  ["list-orgs", "list-teams", "list-repos", "list-users", "user-access", "list-users-access"]

/-- Ordering discipline of one dispatcher invocation for a name-based
action: (a) if any mutating Transport call occurs, a Resolver listing
call occurs strictly before it, with no mutating call preceding that
listing; (b) if the Resolver scan finds no team, no mutating call occurs
at all; (c) no Audit Logger invocation precedes a mutating call. -/
def ResolverOrderingProp (org team : String) (teams : List Team) (evs : List Event) : Prop :=
  (evs.any Event.isMutatingReq = true →
    ∃ l1 l2, evs = l1 ++ Event.request "GET" (teamsEp org) :: l2 ∧
      l1.all (fun e => !e.isMutatingReq) = true) ∧
  (team_scan teams team = none → evs.all (fun e => !e.isMutatingReq) = true) ∧
  List.Pairwise (fun a b => a.isAudit = true → b.isMutatingReq = false) evs

theorem make_request_never_raises (method endpoint : String) (net : NetResult)
    (h : validMethod method = true) (e : Unit) :
    make_request method endpoint net ≠ Except.error e := by
  cases net with
  | exn => simp [make_request, h]
  | resp r =>
    by_cases hs : successStatus r.status <;> by_cases ht : r.text == "" <;>
      simp [make_request, h, hs, ht]

theorem transport_eq (method endpoint : String) (net : NetResult)
    (h : validMethod method = true) :
    make_request method endpoint net = Except.ok (transport method endpoint net) := by
  unfold transport
  cases hmk : make_request method endpoint net with
  | ok r => rfl
  | error e => exact absurd hmk (make_request_never_raises method endpoint net h e)

theorem isSome_iff_transportSuccess (method endpoint : String) (net : NetResult)
    (h : validMethod method = true) :
    (transport method endpoint net).isSome = true ↔ transportSuccess method endpoint net := by
  rw [transportSuccess]
  constructor
  · intro hs
    obtain ⟨j, hj⟩ := Option.isSome_iff_exists.mp hs
    exact ⟨j, by rw [transport_eq method endpoint net h, hj]⟩
  · rintro ⟨j, hj⟩
    rw [transport_eq method endpoint net h] at hj
    simp only [Except.ok.injEq] at hj
    simp [hj]

theorem truthy_iff_transportSuccess (method endpoint : String) (net : NetResult)
    (h : validMethod method = true) :
    (match transport method endpoint net with
     | some j => j.truthy
     | none => false) = true ↔
      ∃ j, make_request method endpoint net = Except.ok (some j) ∧ j.truthy = true := by
  cases htr : transport method endpoint net with
  | none =>
    simp only [htr]
    constructor
    · intro hfalse; exact absurd hfalse (by simp)
    · rintro ⟨j, hj, _⟩
      rw [transport_eq method endpoint net h, htr] at hj
      simp at hj
  | some j =>
    simp only [htr]
    constructor
    · intro htj
      exact ⟨j, by rw [transport_eq method endpoint net h, htr], htj⟩
    · rintro ⟨j2, hj2, htj2⟩
      rw [transport_eq method endpoint net h, htr] at hj2
      simp only [Except.ok.injEq, Option.some.injEq] at hj2
      rw [hj2]; exact htj2

theorem find_first_match (p : Team → Bool) (t : Team) (post : List Team) :
    ∀ pre : List Team, p t = true → (∀ u ∈ pre, p u = false) →
      List.find? p (pre ++ t :: post) = some t := by
  intro pre
  induction pre with
  | nil =>
    intro hpt _
    simp [List.find?_cons, hpt]
  | cons u us ih =>
    intro hpt hpre
    have hu : p u = false := hpre u (by simp)
    simp only [List.cons_append, List.find?_cons, hu]
    exact ih hpt (fun v hv => hpre v (by simp [hv]))

/-- C1: for every supported HTTP method, make_request returns the decoded
JSON body on a success status (the empty dict when the body text is
empty), returns None on a network failure, on any other status, and on a
body that is not valid JSON, and never lets an exception escape. -/
theorem make_request_contract (method endpoint : String) (net : NetResult)
    (h : validMethod method = true) :
    (net = NetResult.exn → make_request method endpoint net = Except.ok none) ∧
    (∀ r, net = NetResult.resp r →
      (successStatus r.status = true →
        (r.text = "" → make_request method endpoint net = Except.ok (some (Json.obj []))) ∧
        (r.text ≠ "" →
          make_request method endpoint net = Except.ok (pyJsonValue r.jsonBody)) ∧
        (r.text ≠ "" → r.jsonBody = none →
          make_request method endpoint net = Except.ok none)) ∧
      (successStatus r.status = false → make_request method endpoint net = Except.ok none)) ∧
    (∀ e, make_request method endpoint net ≠ Except.error e) := by
  refine ⟨?_, ?_, make_request_never_raises method endpoint net h⟩
  · rintro rfl
    simp [make_request, h]
  · rintro r rfl
    constructor
    · intro hs
      refine ⟨?_, ?_, ?_⟩
      · intro ht
        simp [make_request, h, hs, ht]
      · intro ht
        simp [make_request, h, hs, ht]
      · intro ht hb
        simp [make_request, h, hs, ht, hb, pyJsonValue]
    · intro hs
      simp [make_request, h, hs]

/-- Witness for C1 at concrete inputs: a GET with an empty 204 body
yields the empty structure, and a network failure yields None. -/
theorem make_request_contract_witness :
    validMethod "get" = true ∧
    make_request "get" "/users/jdoe" (NetResult.resp ⟨204, "", none⟩) =
      Except.ok (some (Json.obj [])) ∧
    make_request "get" "/users/jdoe" NetResult.exn = Except.ok none :=
  ⟨rfl,
   ((make_request_contract "get" "/users/jdoe" (NetResult.resp ⟨204, "", none⟩) rfl).2.1
       ⟨204, "", none⟩ rfl).1 (by decide) |>.1 rfl,
   (make_request_contract "get" "/users/jdoe" NetResult.exn rfl).1 rfl⟩

/-- C9: the access level classifier is a total function; the six known
permission keywords (matched case-insensitively) map to their fixed
descriptions and every other input maps to the Unknown Access Level text
with the original input embedded verbatim. -/
theorem access_level_description_spec (p : String) :
    (pyLower p = "admin" → get_access_level_description p =
      "Full Access - Admin (Create, Read, Update, Delete, Manage Settings)") ∧
    (pyLower p = "maintain" → get_access_level_description p =
      "Maintain Access (Create, Read, Update, Delete, Manage Issues/PRs)") ∧
    (pyLower p = "push" → get_access_level_description p =
      "Write Access (Create, Read, Update, Delete Code)") ∧
    (pyLower p = "triage" → get_access_level_description p =
      "Triage Access (Read, Manage Issues/PRs)") ∧
    (pyLower p = "pull" → get_access_level_description p =
      "Read Access (Clone, Pull, View)") ∧
    (pyLower p = "none" → get_access_level_description p = "No Access") ∧
    (pyLower p ∉ (["admin", "maintain", "push", "triage", "pull", "none"] : List String) →
      get_access_level_description p = "Unknown Access Level (" ++ p ++ ")") := by
  refine ⟨?_, ?_, ?_, ?_, ?_, ?_, ?_⟩ <;> intro h
  · simp [get_access_level_description, h]
  · simp [get_access_level_description, h]
  · simp [get_access_level_description, h]
  · simp [get_access_level_description, h]
  · simp [get_access_level_description, h]
  · simp [get_access_level_description, h]
  · simp only [List.mem_cons, List.not_mem_nil, not_or] at h
    obtain ⟨h1, h2, h3, h4, h5, h6, _⟩ := h
    simp [get_access_level_description, h1, h2, h3, h4, h5, h6]

/-- Witness for C9: a known keyword in upper case and an unknown keyword. -/
theorem access_level_description_spec_witness :
    pyLower "ADMIN" = "admin" ∧
    get_access_level_description "ADMIN" =
      "Full Access - Admin (Create, Read, Update, Delete, Manage Settings)" ∧
    get_access_level_description "owner" = "Unknown Access Level (owner)" :=
  ⟨by decide, (access_level_description_spec "ADMIN").1 (by decide),
   (access_level_description_spec "owner").2.2.2.2.2.2 (by decide)⟩

/-- C7: a username containing the at character makes validate_user fail
immediately, with an empty event list, i.e. zero make_request calls. -/
theorem validate_user_email_rejected (username : String) (reply : Option Json)
    (h : pyContains username '@' = true) :
    validate_user username reply = (false, []) ∧
    ((validate_user username reply).2.countP
      (fun e => match e with | Event.request _ _ => true | _ => false)) = 0 := by
  constructor
  · simp [validate_user, h]
  · simp [validate_user, h]

/-- Witness for C7 on a concrete email-shaped input, even with a user
endpoint that would answer successfully. -/
theorem validate_user_email_rejected_witness :
    pyContains "jdoe@example.com" '@' = true ∧
    validate_user "jdoe@example.com" (some (Json.obj [("login", Json.str "jdoe")])) =
      (false, []) :=
  ⟨by decide,
   (validate_user_email_rejected "jdoe@example.com"
       (some (Json.obj [("login", Json.str "jdoe")])) (by decide)).1⟩

/-- C6: the resolver returns none when no listed team name matches the
requested name case-insensitively (in particular when the listing is
empty or the listing call failed), and otherwise returns the first
case-insensitive match in listing order. -/
theorem get_team_by_name_spec (w : World) (org team_name : String) :
    ((∀ t ∈ (list_teams w org).1, pyLower t.name ≠ pyLower team_name) →
      (get_team_by_name w org team_name).1 = none) ∧
    (∀ pre t post, (list_teams w org).1 = pre ++ t :: post →
      pyLower t.name = pyLower team_name →
      (∀ u ∈ pre, pyLower u.name ≠ pyLower team_name) →
      (get_team_by_name w org team_name).1 = some t) := by
  constructor
  · intro hnone
    simp only [get_team_by_name, team_scan]
    rw [List.find?_eq_none]
    intro t ht
    simpa using hnone t ht
  · intro pre t post hsplit hmatch hpre
    simp only [get_team_by_name, team_scan, hsplit]
    exact find_first_match _ t post pre (by simpa using hmatch)
      (fun u hu => by simpa using hpre u hu)

/-- Witness for C6: with two teams whose names differ only in case, the
first one in listing order wins; an unmatched name yields none. -/
theorem get_team_by_name_spec_witness :
    (get_team_by_name
        { noWorld with
            listTeamsReply := some [⟨"DevOps", "devops-1"⟩, ⟨"devops", "devops-2"⟩] }
        "acme" "DEVOPS").1 = some ⟨"DevOps", "devops-1"⟩ ∧
    (get_team_by_name
        { noWorld with
            listTeamsReply := some [⟨"DevOps", "devops-1"⟩, ⟨"devops", "devops-2"⟩] }
        "acme" "qa").1 = none :=
  ⟨(get_team_by_name_spec
        { noWorld with
            listTeamsReply := some [⟨"DevOps", "devops-1"⟩, ⟨"devops", "devops-2"⟩] }
        "acme" "DEVOPS").2 [] ⟨"DevOps", "devops-1"⟩ [⟨"devops", "devops-2"⟩] rfl
      (by decide) (by decide),
   (get_team_by_name_spec
        { noWorld with
            listTeamsReply := some [⟨"DevOps", "devops-1"⟩, ⟨"devops", "devops-2"⟩] }
        "acme" "qa").1 (by decide)⟩

/-- C5: a fully successful Audit Logger call against an existing log (one
whose header row is in place, as every log written by the backends is)
appends exactly one row: the record count grows by one, every prior row
is unchanged and in its original position, and the resulting log again
has its header in place.  Both backends are covered: the Google Sheets
backend of github.py and the Excel backend of git-manager.py (for which
an existing log is an existing file). -/
theorem audit_append_only (sheet : List (List String)) (row : List String)
    (rows : List (List String)) (row2 : List String)
    (hheader : headerMissing sheet = false) :
    log_to_google_sheets allOkSheets sheet row = (sheet ++ [row], false) ∧
    (sheet ++ [row]).length = sheet.length + 1 ∧
    (sheet ++ [row]).take sheet.length = sheet ∧
    headerMissing (sheet ++ [row]) = false ∧
    log_action_to_excel allOkExcel (some rows) row2 = (some (rows ++ [row2]), false) ∧
    (rows ++ [row2]).length = rows.length + 1 ∧
    (rows ++ [row2]).take rows.length = rows := by
  refine ⟨?_, by simp, by simp [List.take_left], ?_, ?_, by simp, by simp [List.take_left]⟩
  · simp [log_to_google_sheets, sheetsBodyRun, sheetsAppendPhase, allOkSheets, hheader]
  · cases sheet with
    | nil => simp [headerMissing] at hheader
    | cons first rest =>
      simp only [headerMissing, firstCell, Bool.or_eq_false_iff] at hheader ⊢
      exact ⟨by simp, by simpa using hheader.2⟩
  · simp [log_action_to_excel, excelBodyRun, allOkExcel]

/-- Witness for C5 on a concrete one-row log. -/
theorem audit_append_only_witness :
    headerMissing [sheetsHeaders] = false ∧
    log_to_google_sheets allOkSheets [sheetsHeaders] ["t", "create-team"] =
      ([sheetsHeaders, ["t", "create-team"]], false) ∧
    log_action_to_excel allOkExcel (some [excelHeaders]) ["t"] =
      (some [excelHeaders, ["t"]], false) :=
  ⟨by decide,
   (audit_append_only [sheetsHeaders] ["t", "create-team"] [excelHeaders] ["t"]
       (by decide)).1,
   (audit_append_only [sheetsHeaders] ["t", "create-team"] [excelHeaders] ["t"]
       (by decide)).2.2.2.2.1⟩

/-- C8: a raise at any backend primitive of either Audit Logger backend is
caught inside that backend and reduced to a warning flag (it never
propagates), and the dispatcher outcome of an invocation, including the
already-computed success flag, does not depend on the logging worlds at
all. -/
theorem logging_failure_isolated :
    (∀ (sw : SheetsWorld) (sheet : List (List String)) (row : List String)
        (s : List (List String)),
      sheetsBodyRun sw sheet row = SheetsOutcome.raised s →
      log_to_google_sheets sw sheet row = (s, true)) ∧
    (∀ (ew : ExcelWorld) (file : Option (List (List String))) (row : List String)
        (f : Option (List (List String))),
      excelBodyRun ew file row = ExcelOutcome.raised f →
      log_action_to_excel ew file row = (f, true)) ∧
    (∀ (args : Args) (w : World) (sw sw' : SheetsWorld) (ts ts' : String)
        (s0 s0' : List (List String)),
      (ghOutcome args w sw ts s0).1 = (ghOutcome args w sw' ts' s0').1) ∧
    (∀ (args : Args) (w : World) (ew ew' : ExcelWorld) (ts ts' : String)
        (f0 f0' : Option (List (List String))),
      (gmOutcome args w ew ts f0).1 = (gmOutcome args w ew' ts' f0').1) := by
  refine ⟨?_, ?_, ?_, ?_⟩
  · intro sw sheet row s h
    simp [log_to_google_sheets, h]
  · intro ew file row f h
    simp [log_action_to_excel, h]
  · intro args w sw sw' ts ts' s0 s0'
    rfl
  · intro args w ew ew' ts ts' f0 f0'
    rfl

/-- Witness for C8: a failing connect phase in the Sheets backend and a
failing save in the Excel backend both come back as warnings with the
log state they left behind. -/
theorem logging_failure_isolated_witness :
    sheetsBodyRun ⟨false, true, true⟩ [sheetsHeaders] ["r"] =
      SheetsOutcome.raised [sheetsHeaders] ∧
    log_to_google_sheets ⟨false, true, true⟩ [sheetsHeaders] ["r"] = ([sheetsHeaders], true) ∧
    excelBodyRun ⟨true, false⟩ (some [excelHeaders]) ["r"] =
      ExcelOutcome.raised (some [excelHeaders]) ∧
    log_action_to_excel ⟨true, false⟩ (some [excelHeaders]) ["r"] =
      (some [excelHeaders], true) :=
  ⟨by decide, logging_failure_isolated.1 ⟨false, true, true⟩ [sheetsHeaders] ["r"]
      [sheetsHeaders] (by decide),
   by decide, logging_failure_isolated.2.1 ⟨true, false⟩ (some [excelHeaders]) ["r"]
      (some [excelHeaders]) (by decide)⟩

/-- C4 counterexample: a successful Transport call whose response is a
204 with an empty body makes make_request return the empty structure,
yet add_user_to_team returns False, because the source tests the
response with Python truthiness instead of is-not-None.  This refutes
the claim that every mutating operation returns True exactly on
Transport success including the empty-body case. -/
theorem add_user_empty_body_counterexample :
    make_request "PUT" (membershipEp "acme" "eng" "jdoe") (NetResult.resp ⟨204, "", none⟩) =
      Except.ok (some (Json.obj [])) ∧
    add_user_to_team_net "acme" "eng" "jdoe" (NetResult.resp ⟨204, "", none⟩) = false :=
  ⟨rfl, rfl⟩

/-- C4 amended: the five operations written with an is-not-None test
(delete_team, add_team_to_repo, remove_team_from_repo,
remove_user_from_team, delete_repo) return True exactly when their
Transport call succeeds, including an empty-body 204; the three written
with a truthiness test (create_team, add_user_to_team, create_repo)
return True exactly when the Transport call succeeds with a truthy
decoded body, so they return False on an empty-body success. -/
theorem operation_success_criteria (org slug repo username repo_name permission : String)
    (is_private : Bool) (net : NetResult) :
    (delete_team_net org slug net = true ↔
      transportSuccess "DELETE" (teamEp org slug) net) ∧
    (add_team_to_repo_net org slug repo permission net = true ↔
      transportSuccess "PUT" (teamRepoEp org slug repo) net) ∧
    (remove_team_from_repo_net org slug repo net = true ↔
      transportSuccess "DELETE" (teamRepoEp org slug repo) net) ∧
    (remove_user_from_team_net org slug username net = true ↔
      transportSuccess "DELETE" (membershipEp org slug username) net) ∧
    (delete_repo_net org repo_name net = true ↔
      transportSuccess "DELETE" (repoEp org repo_name) net) ∧
    (create_team_net org slug net = true ↔
      ∃ j, make_request "POST" (teamsEp org) net = Except.ok (some j) ∧ j.truthy = true) ∧
    (add_user_to_team_net org slug username net = true ↔
      ∃ j, make_request "PUT" (membershipEp org slug username) net = Except.ok (some j) ∧
        j.truthy = true) ∧
    (create_repo_net org repo_name net = true ↔
      ∃ j, make_request "POST" (reposEp org) net = Except.ok (some j) ∧ j.truthy = true) := by
  refine ⟨?_, ?_, ?_, ?_, ?_, ?_, ?_, ?_⟩
  · exact (isSome_iff_transportSuccess "DELETE" (teamEp org slug) net rfl)
  · exact (isSome_iff_transportSuccess "PUT" (teamRepoEp org slug repo) net rfl)
  · exact (isSome_iff_transportSuccess "DELETE" (teamRepoEp org slug repo) net rfl)
  · exact (isSome_iff_transportSuccess "DELETE" (membershipEp org slug username) net rfl)
  · exact (isSome_iff_transportSuccess "DELETE" (repoEp org repo_name) net rfl)
  · exact (truthy_iff_transportSuccess "POST" (teamsEp org) net rfl)
  · exact (truthy_iff_transportSuccess "PUT" (membershipEp org slug username) net rfl)
  · exact (truthy_iff_transportSuccess "POST" (reposEp org) net rfl)

theorem pairwise_of_no_mutating (evs : List Event)
    (hall : evs.all (fun e => !e.isMutatingReq) = true) :
    List.Pairwise (fun a b => a.isAudit = true → b.isMutatingReq = false) evs := by
  induction evs with
  | nil => exact List.Pairwise.nil
  | cons a l ih =>
    simp only [List.all_cons, Bool.and_eq_true] at hall
    refine List.Pairwise.cons ?_ (ih hall.2)
    intro b hb _
    have hbm := List.all_eq_true.mp hall.2 b hb
    simpa using hbm

theorem resolver_prop_of_no_mutating (org team : String) (teams : List Team)
    (evs : List Event) (hall : evs.all (fun e => !e.isMutatingReq) = true) :
    ResolverOrderingProp org team teams evs := by
  refine ⟨?_, fun _ => hall, pairwise_of_no_mutating evs hall⟩
  intro hany
  exfalso
  rcases List.any_eq_true.mp hany with ⟨e, he, hme⟩
  have hem := List.all_eq_true.mp hall e he
  simp [hme] at hem

theorem resolver_prop_of_found (org team : String) (teams : List Team) (t : Team)
    (pre : List Event) (m : Event) (post : List Event)
    (hscan : team_scan teams team = some t)
    (hpre : ∀ e ∈ pre, e.isMutatingReq = false ∧ e.isAudit = false)
    (hm : m.isAudit = false)
    (hpost : ∀ e ∈ post, e.isMutatingReq = false) :
    ResolverOrderingProp org team teams
      (pre ++ Event.request "GET" (teamsEp org) :: m :: post) := by
  refine ⟨?_, ?_, ?_⟩
  · intro _
    refine ⟨pre, m :: post, rfl, ?_⟩
    simp only [List.all_eq_true]
    intro e he
    simp [(hpre e he).1]
  · intro hn
    rw [hscan] at hn
    simp at hn
  · rw [List.pairwise_append]
    refine ⟨?_, ?_, ?_⟩
    · exact List.pairwise_of_forall_mem_list
        (fun a ha b _ hau => absurd hau (by simp [(hpre a ha).2]))
    · refine List.Pairwise.cons ?_ (List.Pairwise.cons ?_ ?_)
      · intro b _ hau
        exact absurd hau (by simp [Event.isAudit])
      · intro b _ hau
        exact absurd hau (by simp [hm])
      · exact List.pairwise_of_forall_mem_list (fun a _ b hb _ => hpost b hb)
    · intro a ha b _ hau
      exact absurd hau (by simp [(hpre a ha).2])

theorem gm_tail_not_mutating (c : Bool) (r : GmRecord) :
    ∀ e ∈ (if c then [Event.auditExcel r] else []), e.isMutatingReq = false := by
  cases c
  · simp
  · simp [Event.isMutatingReq]

theorem c3_gh_aux (args : Args) (w : World) (h : args.action ∈ nameBasedActions) :
    ResolverOrderingProp args.org args.team (w.listTeamsReply.getD [])
      (run_action_gh args w).events := by
  simp only [nameBasedActions, List.mem_cons, List.not_mem_nil, or_false] at h
  rcases h with h | h | h | h | h
  · -- delete-team
    cases ht : (args.team == "")
    case true =>
      apply resolver_prop_of_no_mutating
      simp [run_action_gh, ghBranch, h, ht, GhResult.events]
    case false =>
      rcases hscan : team_scan (w.listTeamsReply.getD []) args.team with _ | t
      · apply resolver_prop_of_no_mutating
        simp [run_action_gh, ghBranch, h, ht, get_team_by_name, list_teams, hscan,
          GhResult.events, Event.isMutatingReq]
      · have hevs : (run_action_gh args w).events =
            Event.request "GET" (teamsEp args.org) ::
              Event.request "DELETE" (teamEp args.org t.slug) ::
                [Event.auditSheets (finalRecordGh args (delete_team_ok w.mutateReply))] := by
          simp [run_action_gh, ghBranch, h, ht, get_team_by_name, list_teams, hscan,
            delete_team, GhResult.events]
        rw [hevs]
        exact resolver_prop_of_found args.org args.team _ t [] _ _ hscan (by simp)
          (by simp [Event.isAudit]) (by simp [Event.isMutatingReq])
  · -- add-repo
    cases hcond : (args.team == "" || args.repo == "" || args.permission == "")
    case true =>
      apply resolver_prop_of_no_mutating
      simp [run_action_gh, ghBranch, h, hcond, GhResult.events]
    case false =>
      rcases hscan : team_scan (w.listTeamsReply.getD []) args.team with _ | t
      · apply resolver_prop_of_no_mutating
        simp [run_action_gh, ghBranch, h, hcond, get_team_by_name, list_teams, hscan,
          GhResult.events, Event.isMutatingReq]
      · have hevs : (run_action_gh args w).events =
            Event.request "GET" (teamsEp args.org) ::
              Event.request "PUT" (teamRepoEp args.org t.slug args.repo) ::
                [Event.auditSheets
                  (finalRecordGh args (add_team_to_repo_ok w.mutateReply))] := by
          simp [run_action_gh, ghBranch, h, hcond, get_team_by_name, list_teams, hscan,
            add_team_to_repo, GhResult.events]
        rw [hevs]
        exact resolver_prop_of_found args.org args.team _ t [] _ _ hscan (by simp)
          (by simp [Event.isAudit]) (by simp [Event.isMutatingReq])
  · -- remove-repo
    cases hcond : (args.team == "" || args.repo == "")
    case true =>
      apply resolver_prop_of_no_mutating
      simp [run_action_gh, ghBranch, h, hcond, GhResult.events]
    case false =>
      rcases hscan : team_scan (w.listTeamsReply.getD []) args.team with _ | t
      · apply resolver_prop_of_no_mutating
        simp [run_action_gh, ghBranch, h, hcond, get_team_by_name, list_teams, hscan,
          GhResult.events, Event.isMutatingReq]
      · have hevs : (run_action_gh args w).events =
            Event.request "GET" (teamsEp args.org) ::
              Event.request "DELETE" (teamRepoEp args.org t.slug args.repo) ::
                [Event.auditSheets
                  (finalRecordGh args (remove_team_from_repo_ok w.mutateReply))] := by
          simp [run_action_gh, ghBranch, h, hcond, get_team_by_name, list_teams, hscan,
            remove_team_from_repo, GhResult.events]
        rw [hevs]
        exact resolver_prop_of_found args.org args.team _ t [] _ _ hscan (by simp)
          (by simp [Event.isAudit]) (by simp [Event.isMutatingReq])
  · -- add-user
    cases hcond : (args.team == "" || args.user == "")
    case true =>
      apply resolver_prop_of_no_mutating
      simp [run_action_gh, ghBranch, h, hcond, GhResult.events]
    case false =>
      cases hat : pyContains args.user '@'
      case true =>
        apply resolver_prop_of_no_mutating
        simp [run_action_gh, ghBranch, h, hcond, validate_user, hat, GhResult.events]
      case false =>
        cases hu : (w.userReply).isSome
        case false =>
          apply resolver_prop_of_no_mutating
          simp [run_action_gh, ghBranch, h, hcond, validate_user, hat, hu,
            GhResult.events, Event.isMutatingReq]
        case true =>
          rcases hscan : team_scan (w.listTeamsReply.getD []) args.team with _ | t
          · apply resolver_prop_of_no_mutating
            simp [run_action_gh, ghBranch, h, hcond, validate_user, hat, hu,
              get_team_by_name, list_teams, hscan, GhResult.events, Event.isMutatingReq]
          · have hevs : (run_action_gh args w).events =
                Event.request "GET" (userEp args.user) ::
                  Event.request "GET" (teamsEp args.org) ::
                    Event.request "PUT" (membershipEp args.org t.slug args.user) ::
                      [Event.auditSheets
                        (finalRecordGh args (add_user_to_team_ok w.mutateReply))] := by
              simp [run_action_gh, ghBranch, h, hcond, validate_user, hat, hu,
                get_team_by_name, list_teams, hscan, add_user_to_team, GhResult.events]
            rw [hevs]
            exact resolver_prop_of_found args.org args.team _ t
              [Event.request "GET" (userEp args.user)] _ _ hscan
              (by simp [Event.isMutatingReq, Event.isAudit])
              (by simp [Event.isAudit]) (by simp [Event.isMutatingReq])
  · -- remove-user
    cases hcond : (args.team == "" || args.user == "")
    case true =>
      apply resolver_prop_of_no_mutating
      simp [run_action_gh, ghBranch, h, hcond, GhResult.events]
    case false =>
      cases hat : pyContains args.user '@'
      case true =>
        apply resolver_prop_of_no_mutating
        simp [run_action_gh, ghBranch, h, hcond, validate_user, hat, GhResult.events]
      case false =>
        cases hu : (w.userReply).isSome
        case false =>
          apply resolver_prop_of_no_mutating
          simp [run_action_gh, ghBranch, h, hcond, validate_user, hat, hu,
            GhResult.events, Event.isMutatingReq]
        case true =>
          rcases hscan : team_scan (w.listTeamsReply.getD []) args.team with _ | t
          · apply resolver_prop_of_no_mutating
            simp [run_action_gh, ghBranch, h, hcond, validate_user, hat, hu,
              get_team_by_name, list_teams, hscan, GhResult.events, Event.isMutatingReq]
          · have hevs : (run_action_gh args w).events =
                Event.request "GET" (userEp args.user) ::
                  Event.request "GET" (teamsEp args.org) ::
                    Event.request "DELETE" (membershipEp args.org t.slug args.user) ::
                      [Event.auditSheets
                        (finalRecordGh args (remove_user_from_team_ok w.mutateReply))] := by
              simp [run_action_gh, ghBranch, h, hcond, validate_user, hat, hu,
                get_team_by_name, list_teams, hscan, remove_user_from_team, GhResult.events]
            rw [hevs]
            exact resolver_prop_of_found args.org args.team _ t
              [Event.request "GET" (userEp args.user)] _ _ hscan
              (by simp [Event.isMutatingReq, Event.isAudit])
              (by simp [Event.isAudit]) (by simp [Event.isMutatingReq])

theorem c3_gm_aux (args : Args) (w : World) (h : args.action ∈ nameBasedActions) :
    ResolverOrderingProp args.org args.team (w.listTeamsReply.getD [])
      (run_action_gm args w).2 := by
  simp only [nameBasedActions, List.mem_cons, List.not_mem_nil, or_false] at h
  rcases h with h | h | h | h | h
  · -- delete-team
    cases ht : (args.team == "")
    case true =>
      apply resolver_prop_of_no_mutating
      simp [run_action_gm, h, ht]
    case false =>
      rcases hscan : team_scan (w.listTeamsReply.getD []) args.team with _ | t
      · apply resolver_prop_of_no_mutating
        simp [run_action_gm, h, ht, get_team_by_name, list_teams, hscan,
          Event.isMutatingReq]
      · have hevs : (run_action_gm args w).2 =
            Event.request "GET" (teamsEp args.org) ::
              Event.request "DELETE" (teamEp args.org t.slug) ::
                (if delete_team_ok w.mutateReply then [Event.auditExcel (gmRecord args)]
                 else []) := by
          simp [run_action_gm, h, ht, get_team_by_name, list_teams, hscan, delete_team]
        rw [hevs]
        exact resolver_prop_of_found args.org args.team _ t [] _ _ hscan (by simp)
          (by simp [Event.isAudit]) (gm_tail_not_mutating _ _)
  · -- add-repo
    cases hcond : (args.team == "" || args.repo == "" || args.permission == "")
    case true =>
      apply resolver_prop_of_no_mutating
      simp [run_action_gm, h, hcond]
    case false =>
      rcases hscan : team_scan (w.listTeamsReply.getD []) args.team with _ | t
      · apply resolver_prop_of_no_mutating
        simp [run_action_gm, h, hcond, get_team_by_name, list_teams, hscan,
          Event.isMutatingReq]
      · have hevs : (run_action_gm args w).2 =
            Event.request "GET" (teamsEp args.org) ::
              Event.request "PUT" (teamRepoEp args.org t.slug args.repo) ::
                (if add_team_to_repo_ok w.mutateReply then [Event.auditExcel (gmRecord args)]
                 else []) := by
          simp [run_action_gm, h, hcond, get_team_by_name, list_teams, hscan,
            add_team_to_repo]
        rw [hevs]
        exact resolver_prop_of_found args.org args.team _ t [] _ _ hscan (by simp)
          (by simp [Event.isAudit]) (gm_tail_not_mutating _ _)
  · -- remove-repo
    cases hcond : (args.team == "" || args.repo == "")
    case true =>
      apply resolver_prop_of_no_mutating
      simp [run_action_gm, h, hcond]
    case false =>
      rcases hscan : team_scan (w.listTeamsReply.getD []) args.team with _ | t
      · apply resolver_prop_of_no_mutating
        simp [run_action_gm, h, hcond, get_team_by_name, list_teams, hscan,
          Event.isMutatingReq]
      · have hevs : (run_action_gm args w).2 =
            Event.request "GET" (teamsEp args.org) ::
              Event.request "DELETE" (teamRepoEp args.org t.slug args.repo) ::
                (if remove_team_from_repo_ok w.mutateReply then
                  [Event.auditExcel (gmRecord args)]
                 else []) := by
          simp [run_action_gm, h, hcond, get_team_by_name, list_teams, hscan,
            remove_team_from_repo]
        rw [hevs]
        exact resolver_prop_of_found args.org args.team _ t [] _ _ hscan (by simp)
          (by simp [Event.isAudit]) (gm_tail_not_mutating _ _)
  · -- add-user
    cases hcond : (args.team == "" || args.user == "")
    case true =>
      apply resolver_prop_of_no_mutating
      simp [run_action_gm, h, hcond]
    case false =>
      cases hat : pyContains args.user '@'
      case true =>
        apply resolver_prop_of_no_mutating
        simp [run_action_gm, h, hcond, validate_user, hat]
      case false =>
        cases hu : (w.userReply).isSome
        case false =>
          apply resolver_prop_of_no_mutating
          simp [run_action_gm, h, hcond, validate_user, hat, hu, Event.isMutatingReq]
        case true =>
          rcases hscan : team_scan (w.listTeamsReply.getD []) args.team with _ | t
          · apply resolver_prop_of_no_mutating
            simp [run_action_gm, h, hcond, validate_user, hat, hu, get_team_by_name,
              list_teams, hscan, Event.isMutatingReq]
          · have hevs : (run_action_gm args w).2 =
                Event.request "GET" (userEp args.user) ::
                  Event.request "GET" (teamsEp args.org) ::
                    Event.request "PUT" (membershipEp args.org t.slug args.user) ::
                      (if add_user_to_team_ok w.mutateReply then
                        [Event.auditExcel (gmRecord args)]
                       else []) := by
              simp [run_action_gm, h, hcond, validate_user, hat, hu, get_team_by_name,
                list_teams, hscan, add_user_to_team]
            rw [hevs]
            exact resolver_prop_of_found args.org args.team _ t
              [Event.request "GET" (userEp args.user)] _ _ hscan
              (by simp [Event.isMutatingReq, Event.isAudit])
              (by simp [Event.isAudit]) (gm_tail_not_mutating _ _)
  · -- remove-user
    cases hcond : (args.team == "" || args.user == "")
    case true =>
      apply resolver_prop_of_no_mutating
      simp [run_action_gm, h, hcond]
    case false =>
      cases hat : pyContains args.user '@'
      case true =>
        apply resolver_prop_of_no_mutating
        simp [run_action_gm, h, hcond, validate_user, hat]
      case false =>
        cases hu : (w.userReply).isSome
        case false =>
          apply resolver_prop_of_no_mutating
          simp [run_action_gm, h, hcond, validate_user, hat, hu, Event.isMutatingReq]
        case true =>
          rcases hscan : team_scan (w.listTeamsReply.getD []) args.team with _ | t
          · apply resolver_prop_of_no_mutating
            simp [run_action_gm, h, hcond, validate_user, hat, hu, get_team_by_name,
              list_teams, hscan, Event.isMutatingReq]
          · have hevs : (run_action_gm args w).2 =
                Event.request "GET" (userEp args.user) ::
                  Event.request "GET" (teamsEp args.org) ::
                    Event.request "DELETE" (membershipEp args.org t.slug args.user) ::
                      (if remove_user_from_team_ok w.mutateReply then
                        [Event.auditExcel (gmRecord args)]
                       else []) := by
              simp [run_action_gm, h, hcond, validate_user, hat, hu, get_team_by_name,
                list_teams, hscan, remove_user_from_team]
            rw [hevs]
            exact resolver_prop_of_found args.org args.team _ t
              [Event.request "GET" (userEp args.user)] _ _ hscan
              (by simp [Event.isMutatingReq, Event.isAudit])
              (by simp [Event.isAudit]) (gm_tail_not_mutating _ _)

/-- C3: for every name-based action in both variants, if a mutating
Transport call happens then a Resolver listing call strictly precedes it
(only non-mutating events come before the listing); a NotFound
resolution means no mutating call ever happens; and no Audit Logger
invocation ever precedes a mutating call. -/
theorem resolver_precedes_mutation (args : Args) (w : World)
    (h : args.action ∈ nameBasedActions) :
    ResolverOrderingProp args.org args.team (w.listTeamsReply.getD [])
      (run_action_gh args w).events ∧
    ResolverOrderingProp args.org args.team (w.listTeamsReply.getD [])
      (run_action_gm args w).2 :=
  ⟨c3_gh_aux args w h, c3_gm_aux args w h⟩

/-- Witness for C3: a delete-team invocation against a world where the
team resolves. -/
theorem resolver_precedes_mutation_witness :
    ({ defaultArgs with
        action := "delete-team"
        org := "acme"
        team := "devops" } : Args).action ∈ nameBasedActions ∧
    (ResolverOrderingProp "acme" "devops"
        (({ noWorld with
            listTeamsReply := some [⟨"DevOps", "devops-1"⟩]
            mutateReply := some (Json.obj [("id", Json.num 1)]) } :
              World).listTeamsReply.getD [])
        (run_action_gh
          { defaultArgs with
              action := "delete-team"
              org := "acme"
              team := "devops" }
          { noWorld with
              listTeamsReply := some [⟨"DevOps", "devops-1"⟩]
              mutateReply := some (Json.obj [("id", Json.num 1)]) }).events ∧
      ResolverOrderingProp "acme" "devops"
        (({ noWorld with
            listTeamsReply := some [⟨"DevOps", "devops-1"⟩]
            mutateReply := some (Json.obj [("id", Json.num 1)]) } :
              World).listTeamsReply.getD [])
        (run_action_gm
          { defaultArgs with
              action := "delete-team"
              org := "acme"
              team := "devops" }
          { noWorld with
              listTeamsReply := some [⟨"DevOps", "devops-1"⟩]
              mutateReply := some (Json.obj [("id", Json.num 1)]) }).2) :=
  ⟨by decide,
   resolver_precedes_mutation
     { defaultArgs with
         action := "delete-team"
         org := "acme"
         team := "devops" }
     { noWorld with
         listTeamsReply := some [⟨"DevOps", "devops-1"⟩]
         mutateReply := some (Json.obj [("id", Json.num 1)]) }
     (by decide)⟩

theorem c2_gh_aux (args : Args) (w : World) (h : args.action ∈ mutatingActionsGh)
    (hreach : (run_action_gh args w).events.any Event.isMutatingReq = true) :
    (run_action_gh args w).events.countP Event.isAudit = 1 := by
  simp only [mutatingActionsGh, List.mem_cons, List.not_mem_nil, or_false] at h
  rcases h with h | h | h | h | h | h | h | h
  · -- create-team
    cases ht : (args.team == "")
    case true => simp [run_action_gh, ghBranch, h, ht, GhResult.events] at hreach
    case false =>
      simp [run_action_gh, ghBranch, h, ht, GhResult.events, create_team,
        List.countP_cons, Event.isAudit]
  · -- delete-team
    cases ht : (args.team == "")
    case true => simp [run_action_gh, ghBranch, h, ht, GhResult.events] at hreach
    case false =>
      rcases hscan : team_scan (w.listTeamsReply.getD []) args.team with _ | t
      · simp [run_action_gh, ghBranch, h, ht, get_team_by_name, list_teams, hscan,
          GhResult.events, List.countP_cons, Event.isAudit]
      · simp [run_action_gh, ghBranch, h, ht, get_team_by_name, list_teams, hscan,
          delete_team, GhResult.events, List.countP_cons, Event.isAudit]
  · -- add-repo
    cases hcond : (args.team == "" || args.repo == "" || args.permission == "")
    case true => simp [run_action_gh, ghBranch, h, hcond, GhResult.events] at hreach
    case false =>
      rcases hscan : team_scan (w.listTeamsReply.getD []) args.team with _ | t
      · simp [run_action_gh, ghBranch, h, hcond, get_team_by_name, list_teams, hscan,
          GhResult.events, List.countP_cons, Event.isAudit]
      · simp [run_action_gh, ghBranch, h, hcond, get_team_by_name, list_teams, hscan,
          add_team_to_repo, GhResult.events, List.countP_cons, Event.isAudit]
  · -- remove-repo
    cases hcond : (args.team == "" || args.repo == "")
    case true => simp [run_action_gh, ghBranch, h, hcond, GhResult.events] at hreach
    case false =>
      rcases hscan : team_scan (w.listTeamsReply.getD []) args.team with _ | t
      · simp [run_action_gh, ghBranch, h, hcond, get_team_by_name, list_teams, hscan,
          GhResult.events, List.countP_cons, Event.isAudit]
      · simp [run_action_gh, ghBranch, h, hcond, get_team_by_name, list_teams, hscan,
          remove_team_from_repo, GhResult.events, List.countP_cons, Event.isAudit]
  · -- add-user
    cases hcond : (args.team == "" || args.user == "")
    case true => simp [run_action_gh, ghBranch, h, hcond, GhResult.events] at hreach
    case false =>
      cases hat : pyContains args.user '@'
      case true =>
        simp [run_action_gh, ghBranch, h, hcond, validate_user, hat,
          GhResult.events] at hreach
      case false =>
        cases hu : (w.userReply).isSome
        case false =>
          simp [run_action_gh, ghBranch, h, hcond, validate_user, hat, hu,
            GhResult.events, Event.isMutatingReq] at hreach
        case true =>
          rcases hscan : team_scan (w.listTeamsReply.getD []) args.team with _ | t
          · simp [run_action_gh, ghBranch, h, hcond, validate_user, hat, hu,
              get_team_by_name, list_teams, hscan, GhResult.events,
              Event.isMutatingReq] at hreach
          · simp [run_action_gh, ghBranch, h, hcond, validate_user, hat, hu,
              get_team_by_name, list_teams, hscan, add_user_to_team, GhResult.events,
              List.countP_cons, Event.isAudit]
  · -- remove-user
    cases hcond : (args.team == "" || args.user == "")
    case true => simp [run_action_gh, ghBranch, h, hcond, GhResult.events] at hreach
    case false =>
      cases hat : pyContains args.user '@'
      case true =>
        simp [run_action_gh, ghBranch, h, hcond, validate_user, hat,
          GhResult.events] at hreach
      case false =>
        cases hu : (w.userReply).isSome
        case false =>
          simp [run_action_gh, ghBranch, h, hcond, validate_user, hat, hu,
            GhResult.events, Event.isMutatingReq] at hreach
        case true =>
          rcases hscan : team_scan (w.listTeamsReply.getD []) args.team with _ | t
          · simp [run_action_gh, ghBranch, h, hcond, validate_user, hat, hu,
              get_team_by_name, list_teams, hscan, GhResult.events,
              Event.isMutatingReq] at hreach
          · simp [run_action_gh, ghBranch, h, hcond, validate_user, hat, hu,
              get_team_by_name, list_teams, hscan, remove_user_from_team,
              GhResult.events, List.countP_cons, Event.isAudit]
  · -- create-repo
    cases hn : (args.repo_name == "")
    case true => simp [run_action_gh, ghBranch, h, hn, GhResult.events] at hreach
    case false =>
      simp [run_action_gh, ghBranch, h, hn, GhResult.events, create_repo,
        List.countP_cons, Event.isAudit]
  · -- delete-repo
    cases hr : (args.repo == "")
    case true => simp [run_action_gh, ghBranch, h, hr, GhResult.events] at hreach
    case false =>
      simp [run_action_gh, ghBranch, h, hr, GhResult.events, delete_repo,
        List.countP_cons, Event.isAudit]

theorem c2_gm_aux (args : Args) (w : World) (h : args.action ∈ mutatingActionsGh)
    (hnd : args.action ≠ "delete-repo")
    (hreach : (run_action_gm args w).2.any Event.isMutatingReq = true) :
    ((run_action_gm args w).2.countP Event.isAudit ≤ 1) ∧
    (w.mutateReply = none → (run_action_gm args w).2.countP Event.isAudit = 0) ∧
    (∀ j, w.mutateReply = some j → j.truthy = true →
      (run_action_gm args w).2.countP Event.isAudit = 1) := by
  simp only [mutatingActionsGh, List.mem_cons, List.not_mem_nil, or_false] at h
  rcases h with h | h | h | h | h | h | h | h
  · -- create-team
    cases ht : (args.team == "")
    case true => simp [run_action_gm, h, ht] at hreach
    case false =>
      rcases hm : w.mutateReply with _ | j
      · simp [run_action_gm, h, ht, create_team, create_team_ok, hm,
          List.countP_cons, Event.isAudit]
      · cases htr : j.truthy
        case true =>
          simp [run_action_gm, h, ht, create_team, create_team_ok, hm, htr,
            List.countP_cons, Event.isAudit]
        case false =>
          simp [run_action_gm, h, ht, create_team, create_team_ok, hm, htr,
            List.countP_cons, Event.isAudit]
  · -- delete-team
    cases ht : (args.team == "")
    case true => simp [run_action_gm, h, ht] at hreach
    case false =>
      rcases hscan : team_scan (w.listTeamsReply.getD []) args.team with _ | t
      · simp [run_action_gm, h, ht, get_team_by_name, list_teams, hscan,
          Event.isMutatingReq] at hreach
      · rcases hm : w.mutateReply with _ | j
        · simp [run_action_gm, h, ht, get_team_by_name, list_teams, hscan,
            delete_team, delete_team_ok, hm, List.countP_cons, Event.isAudit]
        · simp [run_action_gm, h, ht, get_team_by_name, list_teams, hscan,
            delete_team, delete_team_ok, hm, List.countP_cons, Event.isAudit]
  · -- add-repo
    cases hcond : (args.team == "" || args.repo == "" || args.permission == "")
    case true => simp [run_action_gm, h, hcond] at hreach
    case false =>
      rcases hscan : team_scan (w.listTeamsReply.getD []) args.team with _ | t
      · simp [run_action_gm, h, hcond, get_team_by_name, list_teams, hscan,
          Event.isMutatingReq] at hreach
      · rcases hm : w.mutateReply with _ | j
        · simp [run_action_gm, h, hcond, get_team_by_name, list_teams, hscan,
            add_team_to_repo, add_team_to_repo_ok, hm, List.countP_cons, Event.isAudit]
        · simp [run_action_gm, h, hcond, get_team_by_name, list_teams, hscan,
            add_team_to_repo, add_team_to_repo_ok, hm, List.countP_cons, Event.isAudit]
  · -- remove-repo
    cases hcond : (args.team == "" || args.repo == "")
    case true => simp [run_action_gm, h, hcond] at hreach
    case false =>
      rcases hscan : team_scan (w.listTeamsReply.getD []) args.team with _ | t
      · simp [run_action_gm, h, hcond, get_team_by_name, list_teams, hscan,
          Event.isMutatingReq] at hreach
      · rcases hm : w.mutateReply with _ | j
        · simp [run_action_gm, h, hcond, get_team_by_name, list_teams, hscan,
            remove_team_from_repo, remove_team_from_repo_ok, hm, List.countP_cons,
            Event.isAudit]
        · simp [run_action_gm, h, hcond, get_team_by_name, list_teams, hscan,
            remove_team_from_repo, remove_team_from_repo_ok, hm, List.countP_cons,
            Event.isAudit]
  · -- add-user
    cases hcond : (args.team == "" || args.user == "")
    case true => simp [run_action_gm, h, hcond] at hreach
    case false =>
      cases hat : pyContains args.user '@'
      case true => simp [run_action_gm, h, hcond, validate_user, hat] at hreach
      case false =>
        cases hu : (w.userReply).isSome
        case false =>
          simp [run_action_gm, h, hcond, validate_user, hat, hu,
            Event.isMutatingReq] at hreach
        case true =>
          rcases hscan : team_scan (w.listTeamsReply.getD []) args.team with _ | t
          · simp [run_action_gm, h, hcond, validate_user, hat, hu, get_team_by_name,
              list_teams, hscan, Event.isMutatingReq] at hreach
          · rcases hm : w.mutateReply with _ | j
            · simp [run_action_gm, h, hcond, validate_user, hat, hu, get_team_by_name,
                list_teams, hscan, add_user_to_team, add_user_to_team_ok, hm,
                List.countP_cons, Event.isAudit]
            · cases htr : j.truthy
              case true =>
                simp [run_action_gm, h, hcond, validate_user, hat, hu, get_team_by_name,
                  list_teams, hscan, add_user_to_team, add_user_to_team_ok, hm, htr,
                  List.countP_cons, Event.isAudit]
              case false =>
                simp [run_action_gm, h, hcond, validate_user, hat, hu, get_team_by_name,
                  list_teams, hscan, add_user_to_team, add_user_to_team_ok, hm, htr,
                  List.countP_cons, Event.isAudit]
  · -- remove-user
    cases hcond : (args.team == "" || args.user == "")
    case true => simp [run_action_gm, h, hcond] at hreach
    case false =>
      cases hat : pyContains args.user '@'
      case true => simp [run_action_gm, h, hcond, validate_user, hat] at hreach
      case false =>
        cases hu : (w.userReply).isSome
        case false =>
          simp [run_action_gm, h, hcond, validate_user, hat, hu,
            Event.isMutatingReq] at hreach
        case true =>
          rcases hscan : team_scan (w.listTeamsReply.getD []) args.team with _ | t
          · simp [run_action_gm, h, hcond, validate_user, hat, hu, get_team_by_name,
              list_teams, hscan, Event.isMutatingReq] at hreach
          · rcases hm : w.mutateReply with _ | j
            · simp [run_action_gm, h, hcond, validate_user, hat, hu, get_team_by_name,
                list_teams, hscan, remove_user_from_team, remove_user_from_team_ok, hm,
                List.countP_cons, Event.isAudit]
            · simp [run_action_gm, h, hcond, validate_user, hat, hu, get_team_by_name,
                list_teams, hscan, remove_user_from_team, remove_user_from_team_ok, hm,
                List.countP_cons, Event.isAudit]
  · -- create-repo
    cases hn : (args.repo_name == "")
    case true => simp [run_action_gm, h, hn] at hreach
    case false =>
      rcases hm : w.mutateReply with _ | j
      · simp [run_action_gm, h, hn, create_repo, create_repo_ok, hm,
          List.countP_cons, Event.isAudit]
      · cases htr : j.truthy
        case true =>
          simp [run_action_gm, h, hn, create_repo, create_repo_ok, hm, htr,
            List.countP_cons, Event.isAudit]
        case false =>
          simp [run_action_gm, h, hn, create_repo, create_repo_ok, hm, htr,
            List.countP_cons, Event.isAudit]
  · -- delete-repo is not a git-manager.py action
    exact absurd h hnd

/-- C2 counterexample: in the git-manager.py variant a create-team whose
remote POST fails reaches its remote call (one mutating request is
issued) yet produces zero Audit Logger invocations, refuting the claim
that exactly one audit record is written regardless of whether the
remote operation succeeded or failed. -/
theorem gm_failed_mutation_unlogged :
    run_action_gm
        { defaultArgs with action := "create-team", org := "acme", team := "platform" }
        noWorld =
      (none, [Event.request "POST" "/orgs/acme/teams"]) ∧
    (run_action_gm
        { defaultArgs with action := "create-team", org := "acme", team := "platform" }
        noWorld).2.countP Event.isMutatingReq = 1 ∧
    (run_action_gm
        { defaultArgs with action := "create-team", org := "acme", team := "platform" }
        noWorld).2.countP Event.isAudit = 0 := by
  refine ⟨by decide, by decide, by decide⟩

/-- C2 amended: for a mutating action that reaches its remote call, the
github.py variant invokes its (single) configured backend exactly once,
regardless of the remote outcome; the git-manager.py variant invokes its
backend at most once: never when the remote call failed, and exactly
once when it succeeded with a truthy decoded body. -/
theorem audit_record_count (args : Args) (w : World)
    (h : args.action ∈ mutatingActionsGh) :
    ((run_action_gh args w).events.any Event.isMutatingReq = true →
      (run_action_gh args w).events.countP Event.isAudit = 1) ∧
    (args.action ≠ "delete-repo" →
      (run_action_gm args w).2.any Event.isMutatingReq = true →
      ((run_action_gm args w).2.countP Event.isAudit ≤ 1 ∧
        (w.mutateReply = none → (run_action_gm args w).2.countP Event.isAudit = 0) ∧
        (∀ j, w.mutateReply = some j → j.truthy = true →
          (run_action_gm args w).2.countP Event.isAudit = 1))) :=
  ⟨fun hreach => c2_gh_aux args w h hreach,
   fun hnd hreach => c2_gm_aux args w h hnd hreach⟩

/-- Witness for C2 amended: a create-team run in each variant, with a
failing remote call for github.py (still exactly one record) and a
successful one for git-manager.py. -/
theorem audit_record_count_witness :
    (({ defaultArgs with action := "create-team", org := "acme", team := "platform" } :
        Args).action ∈ mutatingActionsGh) ∧
    ((run_action_gh
        { defaultArgs with action := "create-team", org := "acme", team := "platform" }
        noWorld).events.any Event.isMutatingReq = true →
      (run_action_gh
        { defaultArgs with action := "create-team", org := "acme", team := "platform" }
        noWorld).events.countP Event.isAudit = 1) ∧
    ((run_action_gm
        { defaultArgs with action := "create-team", org := "acme", team := "platform" }
        { noWorld with
            mutateReply := some (Json.obj [("id", Json.num 7)]) }).2.countP
        Event.isAudit = 1) :=
  ⟨by decide,
   (audit_record_count
     { defaultArgs with action := "create-team", org := "acme", team := "platform" }
     noWorld (by decide)).1,
   (audit_record_count
     { defaultArgs with action := "create-team", org := "acme", team := "platform" }
     { noWorld with mutateReply := some (Json.obj [("id", Json.num 7)]) }
     (by decide)).2 (by decide) (by decide) |>.2.2 (Json.obj [("id", Json.num 7)])
     rfl (by decide)⟩

/-- C10: in the github.py variant every read-only action sets the outcome
to success unconditionally, so the final Audit Logger invocation carries
a record with status Success for every world, including one where every
Transport call fails and all collections come back empty. -/
theorem read_only_always_success (args : Args) (w : World)
    (h : args.action ∈ readOnlyActions)
    (huser : args.action = "user-access" → args.user ≠ "") :
    ∃ evs, run_action_gh args w = GhResult.completed true evs ∧
      evs.getLast? = some (Event.auditSheets (finalRecordGh args true)) ∧
      (finalRecordGh args true).status = "Success" := by
  simp only [readOnlyActions, List.mem_cons, List.not_mem_nil, or_false] at h
  rcases h with h | h | h | h | h | h
  · refine ⟨(list_orgs w).2 ++ [Event.auditSheets (finalRecordGh args true)], ?_, ?_, rfl⟩
    · simp [run_action_gh, ghBranch, h]
    · simp
  · refine ⟨(list_teams w args.org).2 ++ [Event.auditSheets (finalRecordGh args true)],
      ?_, ?_, rfl⟩
    · simp [run_action_gh, ghBranch, h]
    · simp
  · refine ⟨(list_repos w args.org).2 ++ [Event.auditSheets (finalRecordGh args true)],
      ?_, ?_, rfl⟩
    · simp [run_action_gh, ghBranch, h]
    · simp
  · refine ⟨(list_users w args.org).2 ++ [Event.auditSheets (finalRecordGh args true)],
      ?_, ?_, rfl⟩
    · simp [run_action_gh, ghBranch, h]
    · simp
  · have hu : (args.user == "") = false := by simpa using huser h
    refine ⟨(get_user_repo_access w args.org args.user).2 ++
      [Event.auditSheets (finalRecordGh args true)], ?_, ?_, rfl⟩
    · simp [run_action_gh, ghBranch, h, hu]
    · simp
  · refine ⟨list_users_with_access w args.org ++
      [Event.auditSheets (finalRecordGh args true)], ?_, ?_, rfl⟩
    · simp [run_action_gh, ghBranch, h]
    · simp

/-- Witness for C10: a list-teams run against a world where every
Transport call fails still completes with success and logs a Success
record. -/
theorem read_only_always_success_witness :
    (({ defaultArgs with action := "list-teams", org := "acme" } : Args).action
        ∈ readOnlyActions) ∧
    ∃ evs,
      run_action_gh { defaultArgs with action := "list-teams", org := "acme" } noWorld =
        GhResult.completed true evs ∧
      evs.getLast? = some (Event.auditSheets
        (finalRecordGh { defaultArgs with action := "list-teams", org := "acme" } true)) ∧
      (finalRecordGh { defaultArgs with action := "list-teams", org := "acme" }
        true).status = "Success" :=
  ⟨by decide,
   read_only_always_success { defaultArgs with action := "list-teams", org := "acme" }
     noWorld (by decide) (by decide)⟩
